import Mathlib

/-!
Verification of the concurrent fetch engine in `pydlr.py` (class `PyDlr`).

The definitions below are a shallow embedding of the source:
* `PyDlr.get` (the static fetch method) is modelled as a function of the
  URL and an environment describing what the HTTP transport does on this
  call (`GetEnv`).  Exceptions of the transport library are the inductive
  `PyExc`; the `except` chain of the source is `handleClauses`, and `getE`
  returns `Except.error e` exactly when an exception `e` would escape the
  chain and propagate to the caller.
* `PyDlr.Item`, `PyDlr.Result` with its accessors, and
  `PyDlr.Thread.processItem` are modelled directly.
* The worker loop `PyDlr.Thread.run` is modelled as a small-step relation
  `WStep` on a pool state `PoolSt` (one step per atomic action of the
  Python loop: the kill/empty/end checks at the top of the loop, the
  blocking `queue.get()`, and `processItem`), with `DrainStep` adding the
  control action of `PyDlr.wait` that sets the end event.
* The pool-level API (`__init__`, `setCallback`, `kill`) is modelled by
  `PoolFull`, `setCallback`, `PoolApi.kill`; `Thread.join` on a thread
  that was never started raises `RuntimeError`, modelled by `joinAll`.
-/

namespace PyDlr

/-- A `requests` library HTTP response: its status code, its body
(standing for `content` / `text`), and its JSON payload (`none` when the
body is not valid JSON, in which case `.json()` raises). -/
structure Response where
  status : Nat
  content : String
  jsonVal : Option String
deriving DecidableEq, Repr

/-- `requests.Response.raise_for_status` raises `HTTPError` exactly for
client-error (4xx) and server-error (5xx) status codes. -/
def raisesForStatus (r : Response) : Bool :=
  if 400 ≤ r.status ∧ r.status < 600 then true else false

/-- `requests.Response.ok`, which is also the truth value of a response
(`Response.__bool__` returns `self.ok`): true iff `raise_for_status`
would not raise. -/
def Response.ok (r : Response) : Bool :=
  !(raisesForStatus r)

/-- The exceptions that can arise inside the `try` block of `PyDlr.get`:
the `requests.exceptions` classes named by the `except` clauses of the
source, plus `otherExc` for any other `Exception` (carrying its text). -/
inductive PyExc
  | httpError
  | proxyError
  | sslError
  | connectTimeout
  | readTimeout
  | timeout
  | connectionError
  | urlRequired
  | tooManyRedirects
  | missingSchema
  | invalidSchema
  | invalidHeader
  | invalidProxyURL
  | invalidURL
  | otherExc (detail : String)
deriving DecidableEq, Repr

/-- What the HTTP transport does for one `requests.get` call: either it
returns a response, or it raises an exception. -/
inductive GetEnv
  | resp (r : Response)
  | raises (e : PyExc)
deriving DecidableEq, Repr

/-- Python renders `None` as the string `None` in `%s` formatting. -/
def urlStr : Option String → String
  | none => "None"
  | some s => s

/-- `requests.get(url)`: a call with `url = None` deterministically
raises `MissingSchema` (the URL `None` has no scheme); otherwise the
outcome is whatever the transport environment does. -/
def requestsGet (url : Option String) (env : GetEnv) : Except PyExc Response :=
  match url with
  | none => Except.error PyExc.missingSchema
  | some _ =>
    match env with
    | GetEnv.resp r => Except.ok r
    | GetEnv.raises e => Except.error e

/-- The `try` block of `PyDlr.get`: `response = requests.get(url)` then
`response.raise_for_status()`.  Returns the value of the local variable
`response` (assigned before `raise_for_status` can raise) and the
exception, if one was raised. -/
def tryBody (url : Option String) (env : GetEnv) : Option Response × Option PyExc :=
  match requestsGet url env with
  | Except.error e => (none, some e)
  | Except.ok r =>
    if raisesForStatus r then (some r, some PyExc.httpError) else (some r, none)

/-- The `except` chain of `PyDlr.get`, in source order.  For each
exception it yields the `failureReason` string assigned by the first
matching clause, paired with whether that clause also calls
`logger.exception` (only the catch-all `except Exception` does).
`none` would mean the exception escapes the chain; the final catch-all
clause makes that impossible. -/
def handleClauses : PyExc → Option (String × Bool)
  | PyExc.httpError => some ("An HTTP error occurred.", false)
  | PyExc.proxyError => some ("A proxy error occurred.", false)
  | PyExc.sslError => some ("An SSL error occurred.", false)
  | PyExc.connectTimeout =>
    some ("The request timed out while trying to connect to the remote server.", false)
  | PyExc.readTimeout =>
    some ("The server did not send any data in the allotted amount of time.", false)
  | PyExc.timeout => some ("The request timed out.", false)
  | PyExc.connectionError => some ("A Connection error occurred.", false)
  | PyExc.urlRequired => some ("A valid URL is required to make a request.", false)
  | PyExc.tooManyRedirects => some ("Too many redirects.", false)
  | PyExc.missingSchema => some ("The URL schema (e.g. http or https) is missing.", false)
  | PyExc.invalidSchema => some ("The URL schema is invalid.", false)
  | PyExc.invalidHeader => some ("The header value provided was somehow invalid.", false)
  | PyExc.invalidProxyURL => some ("The proxy URL provided is invalid.", false)
  | PyExc.invalidURL => some ("The URL provided was somehow invalid.", false)
  | PyExc.otherExc _ => some ("An unexpected error occurred.", true)

/-- The text of an exception (`%s` of the caught error), used by the
`logger.exception` call of the catch-all clause. -/
def excDetail : PyExc → String
  | PyExc.otherExc s => s
  | _ => ""

/-- Severity of an emitted diagnostic.  `logger.exception` entries are
kept distinct from plain `logger.error` entries so they can be counted
separately. -/
inductive LogLevel
  | debug
  | info
  | warning
  | error
  | exception
deriving DecidableEq, Repr

/-- One diagnostic record: severity and message. -/
abbrev LogEntry := LogLevel × String

/-- The observable behaviour of `PyDlr.get`: its returned
`(response, failureReason)` pair and the diagnostics it emits. -/
structure GetRet where
  response : Option Response
  failureReason : Option String
  logs : List LogEntry
deriving DecidableEq, Repr

/-- `PyDlr.get(url)` with an explicit outcome for the uncaught case:
`Except.ok` with the returned `(response, failureReason)` pair (and the
emitted log entries) when the function returns normally, `Except.error e`
if exception `e` were to escape the `except` chain. -/
def getE (url : Option String) (env : GetEnv) : Except PyExc GetRet :=
  let us := urlStr url
  let dbg : LogEntry := (LogLevel.debug, "Downloading " ++ us ++ "...")
  match tryBody url env with
  | (resp?, none) =>
    Except.ok ⟨resp?, none, [dbg, (LogLevel.debug, "Successfully downloaded " ++ us)]⟩
  | (resp?, some e) =>
    match handleClauses e with
    | none => Except.error e
    | some (reason, excLogged) =>
      let excLogs : List LogEntry :=
        if excLogged then
          [(LogLevel.exception,
            "An unexpected error occurred while downloading " ++ us ++ ", " ++ excDetail e)]
        else []
      Except.ok ⟨resp?, some reason,
        [dbg] ++ excLogs ++
          [(LogLevel.error, "Failed to download " ++ us ++ "... " ++ reason)]⟩

/-- `PyDlr.get` as the total function it is in practice (the fallback
value is never reached; `getE` is proved to always be `Except.ok`). -/
def get (url : Option String) (env : GetEnv) : GetRet :=
  match getE url env with
  | Except.ok r => r
  | Except.error _ => ⟨none, none, []⟩

/-- `PyDlr.Item`: a download task.  `id` stands for Python object
identity (two distinct `Item` objects are distinct tasks even with equal
fields); callbacks are identified by a number (an opaque function
reference). -/
structure Item where
  id : Nat
  url : Option String
  callback : Option Nat
deriving DecidableEq, Repr

/-- `PyDlr.Result`: the outcome record handed to a callback. -/
structure Result where
  isSuccess : Bool
  item : Item
  response : Option Response
  failureReason : Option String
deriving DecidableEq, Repr

/-- `PyDlr.Result.successfulResult(item, response)`:
`cls(True, item, response)`, leaving `failureReason` at its default
`None`. -/
def Result.successfulResult (item : Item) (response : Option Response) : Result :=
  ⟨true, item, response, none⟩

/-- `PyDlr.Result.failedResult(item, response, failureReason)`:
`cls(False, item, response, failureReason)`. -/
def Result.failedResult (item : Item) (response : Option Response)
    (failureReason : Option String) : Result :=
  ⟨false, item, response, failureReason⟩

/-- `PyDlr.Result.getBytes`: `None` when there is no response, else the
response content. -/
def Result.getBytes (r : Result) : Option String :=
  match r.response with
  | none => none
  | some resp => some resp.content

/-- `PyDlr.Result.getText(encoding)`: `None` when there is no response,
else the decoded text (the optional encoding assignment only influences
how the bytes are decoded, which the model leaves abstract). -/
def Result.getText (r : Result) (encoding : Option String) : Option String :=
  match r.response with
  | none => none
  | some resp => some resp.content

/-- `PyDlr.Result.getJson`: `None` when there is no response; otherwise
`response.json()`, which raises `ValueError` when the body is not valid
JSON. -/
def Result.getJson (r : Result) : Except String (Option String) :=
  match r.response with
  | none => Except.ok none
  | some resp =>
    match resp.jsonVal with
    | some j => Except.ok (some j)
    | none => Except.error "ValueError"

/-- Python truthiness of the `response` local in
`PyDlr.Thread.processItem`: `bool(None)` is false, and
`Response.__bool__` is `Response.ok`. -/
def truthyResp : Option Response → Bool
  | none => false
  | some r => r.ok

/-- The callback resolution of `PyDlr.Thread.processItem`:
`item.callback if item.callback is not None else self.defaultCallback`. -/
def resolveCallback (taskCb defaultCb : Option Nat) : Option Nat :=
  match taskCb with
  | some c => some c
  | none => defaultCb

/-- Everything observable about one `PyDlr.Thread.processItem` call: the
`Result` it builds, the callback invocation it performs (callback
identity paired with the argument), and the diagnostics emitted. -/
structure ProcRet where
  result : Result
  invoked : Option (Nat × Result)
  logs : List LogEntry
deriving DecidableEq, Repr

/-- `PyDlr.Thread.processItem(item)`: fetch via `PyDlr.get`, build a
`Result` by the truthiness of `response`, resolve the callback, and
either invoke it with the result or log a warning. -/
def processItem (defaultCb : Option Nat) (item : Item) (env : GetEnv) : ProcRet :=
  let g := get item.url env
  let result :=
    if truthyResp g.response then Result.successfulResult item g.response
    else Result.failedResult item g.response g.failureReason
  let cb := resolveCallback item.callback defaultCb
  ⟨result, cb.map fun c => (c, result),
    g.logs ++
      (if cb.isNone then [(LogLevel.warning, "There is no callback for " ++ urlStr item.url)]
       else [])⟩

/-- Where a worker thread is inside the loop of `PyDlr.Thread.run`:
at the top of the `while` (about to test the kill event), past the
`not queue.empty()` test and about to call the blocking `queue.get()`,
inside `processItem` holding a dequeued item, or terminated. -/
inductive WStatus
  | atLoop
  | atGet
  | processing (item : Item)
  | done
deriving DecidableEq, Repr

/-- The shared state of a running pool: the queue contents (front
first), the two `threading.Event` latches, the control state of every
worker thread, and the log of callback invocations performed so far. -/
structure PoolSt where
  queue : List Item
  killSet : Bool
  endSet : Bool
  workers : List WStatus
  invoked : List (Nat × Result)
deriving DecidableEq, Repr

/-- One atomic action of worker `i` in `PyDlr.Thread.run`.  The split
into `seeItem` (the `queue.empty()` test) and `getItem` (the blocking
`queue.get()`) is faithful to the source: the two are separate queue
operations and another worker may empty the queue in between, in which
case the worker sits in `atGet` with no enabled step — exactly a thread
blocked inside `queue.get()`. -/
inductive WStep (d : Option Nat) : Nat → PoolSt → PoolSt → Prop
  | killExit (i : Nat) (s : PoolSt) :
      s.killSet = true → s.workers.get? i = some WStatus.atLoop →
      WStep d i s { s with workers := s.workers.set i WStatus.done }
  | seeItem (i : Nat) (s : PoolSt) :
      s.killSet = false → s.workers.get? i = some WStatus.atLoop → s.queue ≠ [] →
      WStep d i s { s with workers := s.workers.set i WStatus.atGet }
  | drainExit (i : Nat) (s : PoolSt) :
      s.killSet = false → s.workers.get? i = some WStatus.atLoop →
      s.queue = [] → s.endSet = true →
      WStep d i s { s with workers := s.workers.set i WStatus.done }
  | spin (i : Nat) (s : PoolSt) :
      s.killSet = false → s.workers.get? i = some WStatus.atLoop →
      s.queue = [] → s.endSet = false →
      WStep d i s s
  | getItem (i : Nat) (s : PoolSt) (it : Item) (rest : List Item) :
      s.workers.get? i = some WStatus.atGet → s.queue = it :: rest →
      WStep d i s { s with queue := rest, workers := s.workers.set i (WStatus.processing it) }
  | procStep (i : Nat) (s : PoolSt) (it : Item) (env : GetEnv) :
      s.workers.get? i = some (WStatus.processing it) →
      WStep d i s
        { s with workers := s.workers.set i WStatus.atLoop,
                 invoked := s.invoked ++ (processItem d it env).invoked.toList }

/-- A step of the pool during a drain-then-wait shutdown: either some
worker acts, or the controlling thread runs the `self._endEvent.set()`
of `PyDlr.wait` (the kill event is never set in this scenario). -/
inductive DrainStep (d : Option Nat) : PoolSt → PoolSt → Prop
  | worker (i : Nat) (s s' : PoolSt) : WStep d i s s' → DrainStep d s s'
  | setEnd (s : PoolSt) : DrainStep d s { s with endSet := true }

/-- Reachability under drain-shutdown interleavings. -/
def ReachD (d : Option Nat) : PoolSt → PoolSt → Prop :=
  Relation.ReflTransGen (DrainStep d)

/-- The pool state right after `PyDlr.__init__` plus `start()`: the
initial tasks enqueued, no latch set, every worker at the top of its
loop, no callback invoked yet. -/
def initSt (tasks : List Item) (n : Nat) : PoolSt :=
  ⟨tasks, false, false, List.replicate n WStatus.atLoop, []⟩

/-- `PyDlr.wait` has returned: the end event is set, the queue has been
observed empty, and every worker thread has been joined. -/
def drainComplete (s : PoolSt) : Prop :=
  s.endSet = true ∧ s.queue = [] ∧ ∀ w ∈ s.workers, w = WStatus.done

/-- Whether worker `i` has any enabled step in state `s`.  A worker in
`atGet` with an empty queue has none: it is blocked inside the
parameterless `queue.get()`, which waits until an item is available. -/
def wStepEnabled (i : Nat) (s : PoolSt) : Bool :=
  match s.workers.get? i with
  | some WStatus.atLoop => true
  | some WStatus.atGet => !s.queue.isEmpty
  | some (WStatus.processing _) => true
  | some WStatus.done => false
  | none => false

/-- The pool object at the `self.callback` / thread-construction level:
`__init__` stores `callback` on the pool and passes its current value to
each `PyDlr.Thread`, which stores it as `defaultCallback`. -/
structure PoolFull where
  callback : Option Nat
  threads : List (Option Nat)
deriving DecidableEq, Repr

/-- `PyDlr.__init__(items, numThreads, callback)`, restricted to the
callback wiring: every thread captures the value of `self.callback` at
construction time. -/
def pyDlrInit (numThreads : Nat) (callback : Option Nat) : PoolFull :=
  ⟨callback, List.replicate numThreads callback⟩

/-- `PyDlr.setCallback(callback)`: assigns `self.callback` only; the
`defaultCallback` already stored on each thread is not touched. -/
def setCallback (p : PoolFull) (c : Option Nat) : PoolFull :=
  { p with callback := c }

/-- `threading.Thread.join()` called on each thread in order: joining a
thread that was never started raises
`RuntimeError("cannot join thread before it is started")`. -/
def joinAll : List Bool → Except String Unit
  | [] => Except.ok ()
  | started :: rest =>
    if started then joinAll rest
    else Except.error "cannot join thread before it is started"

/-- The pool as seen by the control methods: queue, kill latch, and
whether each thread has been started. -/
structure PoolApi where
  queue : List Item
  killSet : Bool
  threadsStarted : List Bool
deriving DecidableEq, Repr

/-- `PyDlr.kill()`: set the kill event, then join every thread.  Returns
the updated pool together with the outcome of the join loop (`Except.error`
when a join raises). -/
def PoolApi.kill (p : PoolApi) : PoolApi × Except String Unit :=
  let p' : PoolApi := { p with killSet := true }
  (p', joinAll p'.threadsStarted)

/-- The items a worker in the given control state holds (a dequeued item
not yet handed to a callback). -/
def hold : WStatus → Multiset Item
  | WStatus.processing it => {it}
  | _ => 0

/-- All items currently held by workers. -/
def heldMS : List WStatus → Multiset Item
  | [] => 0
  | w :: ws => hold w + heldMS ws

/-- The tasks carried by the callback invocations performed so far. -/
def invItems (l : List (Nat × Result)) : List Item :=
  l.map (fun p => p.2.item)

/-- Conservation of tasks: every initial task is in the queue, in the
hands of a worker, or already delivered to a callback — and nowhere
twice. -/
def TaskConservation (tasks : List Item) (s : PoolSt) : Prop :=
  (s.queue : Multiset Item) + heldMS s.workers + (invItems s.invoked : Multiset Item)
    = (tasks : Multiset Item)

lemma heldMS_set (ws : List WStatus) (i : Nat) (a b : WStatus)
    (h : ws.get? i = some a) :
    heldMS (ws.set i b) + hold a = heldMS ws + hold b := by
  induction ws generalizing i with
  | nil => simp at h
  | cons w ws ih =>
    cases i with
    | zero =>
      simp at h
      subst h
      simp [heldMS]
      abel
    | succ i =>
      have h' : ws.get? i = some a := h
      have := ih i h'
      simp [heldMS, List.set]
      rw [add_assoc, this]
      abel

lemma heldMS_replicate_atLoop (n : Nat) :
    heldMS (List.replicate n WStatus.atLoop) = 0 := by
  induction n with
  | zero => simp [heldMS]
  | succ n ih => simp [List.replicate, heldMS, ih, hold]

lemma heldMS_all_done (ws : List WStatus) (h : ∀ w ∈ ws, w = WStatus.done) :
    heldMS ws = 0 := by
  induction ws with
  | nil => simp [heldMS]
  | cons w ws ih =>
    have hw := h w (by simp)
    subst hw
    simp [heldMS, hold, ih fun w hw => h w (by simp [hw])]

lemma invItems_append (l : List (Nat × Result)) (p : Nat × Result) :
    invItems (l ++ [p]) = invItems l ++ [p.2.item] := by
  simp [invItems]

/-- When a default callback is set, `processItem` always performs
exactly one callback invocation, and its argument's `item` field is the
processed item. -/
lemma processItem_result_item (d : Option Nat) (it : Item) (env : GetEnv) :
    (processItem d it env).result.item = it := by
  simp only [processItem]
  split <;> simp [Result.successfulResult, Result.failedResult]

lemma processItem_invoked_of_default (d : Option Nat) (hd : d.isSome)
    (it : Item) (env : GetEnv) :
    ∃ c, (processItem d it env).invoked = some (c, (processItem d it env).result) := by
  obtain ⟨c₀, hc₀⟩ := Option.isSome_iff_exists.mp hd
  subst hc₀
  cases hcb : it.callback with
  | none => exact ⟨c₀, by simp [processItem, resolveCallback, hcb]⟩
  | some c => exact ⟨c, by simp [processItem, resolveCallback, hcb]⟩

lemma getE_none (env : GetEnv) :
    getE none env = Except.ok
      ⟨none, some "The URL schema (e.g. http or https) is missing.",
        [(LogLevel.debug, "Downloading None..."),
         (LogLevel.error,
          "Failed to download None... The URL schema (e.g. http or https) is missing.")]⟩ :=
  rfl

lemma getE_resp_fail (u : String) (r : Response) (h : raisesForStatus r = true) :
    getE (some u) (GetEnv.resp r) = Except.ok
      ⟨some r, some "An HTTP error occurred.",
        [(LogLevel.debug, "Downloading " ++ u ++ "..."),
         (LogLevel.error, "Failed to download " ++ u ++ "... " ++ "An HTTP error occurred.")]⟩ := by
  simp [getE, tryBody, requestsGet, h, handleClauses, urlStr, excDetail]

lemma getE_resp_ok (u : String) (r : Response) (h : raisesForStatus r = false) :
    getE (some u) (GetEnv.resp r) = Except.ok
      ⟨some r, none,
        [(LogLevel.debug, "Downloading " ++ u ++ "..."),
         (LogLevel.debug, "Successfully downloaded " ++ u)]⟩ := by
  simp [getE, tryBody, requestsGet, h, urlStr]

lemma handleClauses_isSome (e : PyExc) : (handleClauses e).isSome = true := by
  cases e <;> rfl

lemma getE_raises (u : String) (e : PyExc) (reason : String) (b : Bool)
    (h : handleClauses e = some (reason, b)) :
    getE (some u) (GetEnv.raises e) = Except.ok
      ⟨none, some reason,
        [(LogLevel.debug, "Downloading " ++ u ++ "...")] ++
          (if b then
            [(LogLevel.exception,
              "An unexpected error occurred while downloading " ++ u ++ ", " ++ excDetail e)]
           else []) ++
          [(LogLevel.error, "Failed to download " ++ u ++ "... " ++ reason)]⟩ := by
  simp [getE, tryBody, requestsGet, h, urlStr]

lemma getE_ok (u : Option String) (env : GetEnv) :
    ∃ ret, getE u env = Except.ok ret := by
  cases u with
  | none => exact ⟨_, getE_none env⟩
  | some uu =>
    cases env with
    | resp r =>
      cases hb : raisesForStatus r
      · exact ⟨_, getE_resp_ok uu r hb⟩
      · exact ⟨_, getE_resp_fail uu r hb⟩
    | raises e =>
      obtain ⟨⟨reason, b⟩, h⟩ := Option.isSome_iff_exists.mp (handleClauses_isSome e)
      exact ⟨_, getE_raises uu e reason b h⟩

lemma get_eq_of_getE {u : Option String} {env : GetEnv} {ret : GetRet}
    (h : getE u env = Except.ok ret) : get u env = ret := by
  simp [get, h]

/-- A fetch whose returned `response` local is falsy (either `None`, or
an HTTP 4xx/5xx response) always sets a failure reason. -/
lemma get_failureReason_of_not_truthy (u : Option String) (env : GetEnv)
    (h : truthyResp (get u env).response = false) :
    (get u env).failureReason ≠ none := by
  cases u with
  | none => rw [get_eq_of_getE (getE_none env)]; simp
  | some uu =>
    cases env with
    | resp r =>
      cases hb : raisesForStatus r
      · rw [get_eq_of_getE (getE_resp_ok uu r hb)] at h
        simp [truthyResp, Response.ok, hb] at h
      · rw [get_eq_of_getE (getE_resp_fail uu r hb)]; simp
    | raises e =>
      obtain ⟨⟨reason, b⟩, he⟩ := Option.isSome_iff_exists.mp (handleClauses_isSome e)
      rw [get_eq_of_getE (getE_raises uu e reason b he)]; simp

/-- A fetch whose returned `response` local is truthy (a 2xx/3xx
response) leaves the failure reason unset. -/
lemma get_failureReason_of_truthy (u : Option String) (env : GetEnv)
    (h : truthyResp (get u env).response = true) :
    (get u env).failureReason = none := by
  cases u with
  | none => rw [get_eq_of_getE (getE_none env)] at h; simp [truthyResp] at h
  | some uu =>
    cases env with
    | resp r =>
      cases hb : raisesForStatus r
      · rw [get_eq_of_getE (getE_resp_ok uu r hb)]
      · rw [get_eq_of_getE (getE_resp_fail uu r hb)] at h
        simp [truthyResp, Response.ok, hb] at h
    | raises e =>
      obtain ⟨⟨reason, b⟩, he⟩ := Option.isSome_iff_exists.mp (handleClauses_isSome e)
      rw [get_eq_of_getE (getE_raises uu e reason b he)] at h
      simp [truthyResp] at h

lemma taskConservation_step (d : Option Nat) (hd : d.isSome) (tasks : List Item)
    {s s' : PoolSt} (h : DrainStep d s s') (hi : TaskConservation tasks s) :
    TaskConservation tasks s' := by
  cases h with
  | setEnd s => exact hi
  | worker i s s' hw =>
    cases hw with
    | killExit h1 h2 =>
      have hh := heldMS_set s.workers i WStatus.atLoop WStatus.done h2
      simp [hold] at hh
      unfold TaskConservation at hi ⊢
      simpa [hh] using hi
    | seeItem h1 h2 h3 =>
      have hh := heldMS_set s.workers i WStatus.atLoop WStatus.atGet h2
      simp [hold] at hh
      unfold TaskConservation at hi ⊢
      simpa [hh] using hi
    | drainExit h1 h2 h3 h4 =>
      have hh := heldMS_set s.workers i WStatus.atLoop WStatus.done h2
      simp [hold] at hh
      unfold TaskConservation at hi ⊢
      simpa [hh] using hi
    | spin h1 h2 h3 h4 => exact hi
    | getItem it rest hg hq =>
      have hh := heldMS_set s.workers i WStatus.atGet (WStatus.processing it) hg
      simp [hold] at hh
      unfold TaskConservation at hi ⊢
      rw [hq] at hi
      have hc : ((it :: rest : List Item) : Multiset Item)
          = {it} + (rest : Multiset Item) := by
        rw [← Multiset.cons_coe, ← Multiset.singleton_add]
      rw [hc] at hi
      simp only []
      rw [hh, ← hi]
      abel
    | procStep it env hg =>
      have hh := heldMS_set s.workers i (WStatus.processing it) WStatus.atLoop hg
      simp [hold] at hh
      obtain ⟨c, hc⟩ := processItem_invoked_of_default d hd it env
      have hlist : (processItem d it env).invoked.toList
          = [(c, (processItem d it env).result)] := by rw [hc]; rfl
      unfold TaskConservation at hi ⊢
      simp only [hlist, invItems_append, processItem_result_item]
      have hcoe : ((invItems s.invoked ++ [it] : List Item) : Multiset Item)
          = (invItems s.invoked : Multiset Item) + {it} := by
        rw [← Multiset.coe_singleton it, Multiset.coe_add]
      rw [hcoe, ← hi, ← hh]
      abel

lemma taskConservation_reach (d : Option Nat) (hd : d.isSome) (tasks : List Item)
    {s s' : PoolSt} (h : ReachD d s s') (hi : TaskConservation tasks s) :
    TaskConservation tasks s' := by
  induction h with
  | refl => exact hi
  | tail h₁ hstep ih => exact taskConservation_step d hd tasks hstep ih

lemma taskConservation_init (tasks : List Item) (n : Nat) :
    TaskConservation tasks (initSt tasks n) := by
  simp [TaskConservation, initSt, heldMS_replicate_atLoop, invItems]

/-- The pool invariant once the kill event is set and every worker is at
the top of its loop or terminated: no worker ever acquires an item and
no callback is ever invoked. -/
def KilledNoWork (s : PoolSt) : Prop :=
  s.killSet = true ∧ s.invoked = [] ∧
    ∀ w ∈ s.workers, w = WStatus.atLoop ∨ w = WStatus.done

lemma killedNoWork_step (d : Option Nat) {s s' : PoolSt}
    (h : DrainStep d s s') (hi : KilledNoWork s) : KilledNoWork s' := by
  obtain ⟨hk, hinv, hw⟩ := hi
  cases h with
  | setEnd s => exact ⟨hk, hinv, hw⟩
  | worker i s s' hstep =>
    cases hstep with
    | killExit h1 h2 =>
      refine ⟨hk, hinv, ?_⟩
      intro w hwmem
      rcases List.mem_or_eq_of_mem_set hwmem with h | h
      · exact hw w h
      · exact Or.inr h
    | seeItem h1 h2 h3 => rw [hk] at h1; cases h1
    | drainExit h1 h2 h3 h4 => rw [hk] at h1; cases h1
    | spin h1 h2 h3 h4 => exact ⟨hk, hinv, hw⟩
    | getItem it rest hg hq =>
      have := hw _ (List.get?_mem hg)
      simp at this
    | procStep it env hg =>
      have := hw _ (List.get?_mem hg)
      simp at this

lemma killedNoWork_reach (d : Option Nat) {s s' : PoolSt}
    (h : ReachD d s s') (hi : KilledNoWork s) : KilledNoWork s' := by
  induction h with
  | refl => exact hi
  | tail h₁ hstep ih => exact killedNoWork_step d hstep ih

/-- A worker with no enabled step can take no step: in particular a
worker sitting at the blocking `queue.get()` with an empty queue is
stuck. -/
lemma wStepEnabled_sound (d : Option Nat) (i : Nat) (s : PoolSt)
    (h : wStepEnabled i s = false) : ∀ s', ¬ WStep d i s s' := by
  intro s' hw
  cases hw <;> simp_all [wStepEnabled]

/-- C1: for every set of N tasks enqueued before `start()` (pairwise
distinct objects), with W ≥ 1 workers and a default callback set, any
interleaving in which the drain-then-wait shutdown (`PyDlr.wait`)
completes has performed exactly N callback invocations, whose tasks are
a permutation of the initial tasks and pairwise distinct. -/
theorem drain_shutdown_exact_invocations (d : Option Nat) (hd : d.isSome)
    (tasks : List Item) (hnodup : tasks.Nodup) (n : Nat) (hn : 1 ≤ n)
    (s : PoolSt) (hr : ReachD d (initSt tasks n) s) (hc : drainComplete s) :
    s.invoked.length = tasks.length
      ∧ (invItems s.invoked).Perm tasks
      ∧ (invItems s.invoked).Nodup := by
  have hi := taskConservation_reach d hd tasks hr (taskConservation_init tasks n)
  obtain ⟨hend, hq, hdone⟩ := hc
  unfold TaskConservation at hi
  rw [hq, heldMS_all_done s.workers hdone] at hi
  simp only [Multiset.coe_nil, zero_add, add_zero] at hi
  have hperm : (invItems s.invoked).Perm tasks := Multiset.coe_eq_coe.mp hi
  have hlen := hperm.length_eq
  simp only [invItems, List.length_map] at hlen
  exact ⟨hlen, hperm, hperm.symm.nodup hnodup⟩

/-- Witness for C1: one task, one worker, default callback `7`; the
worker dequeues and processes the task, `wait` sets the end event, the
worker exits on the empty queue, and exactly one invocation with the
task has occurred. -/
theorem drain_shutdown_exact_invocations_witness :
    (PoolSt.mk [] false true [WStatus.done]
        [(7, Result.successfulResult (Item.mk 1 (some "http://x") none)
              (some (Response.mk 200 "b" none)))]).invoked.length
        = [Item.mk 1 (some "http://x") none].length
      ∧ (invItems (PoolSt.mk [] false true [WStatus.done]
          [(7, Result.successfulResult (Item.mk 1 (some "http://x") none)
                (some (Response.mk 200 "b" none)))]).invoked).Perm
          [Item.mk 1 (some "http://x") none]
      ∧ (invItems (PoolSt.mk [] false true [WStatus.done]
          [(7, Result.successfulResult (Item.mk 1 (some "http://x") none)
                (some (Response.mk 200 "b" none)))]).invoked).Nodup :=
  drain_shutdown_exact_invocations (some 7) rfl
    [Item.mk 1 (some "http://x") none] (by simp) 1 (Nat.le_refl 1) _
    (Relation.ReflTransGen.head
      (DrainStep.worker 0 _ _ (WStep.seeItem 0 _ rfl rfl (by simp [initSt])))
      (Relation.ReflTransGen.head
        (DrainStep.worker 0 _ _
          (WStep.getItem 0 _ (Item.mk 1 (some "http://x") none) [] rfl rfl))
        (Relation.ReflTransGen.head
          (DrainStep.worker 0 _ _
            (WStep.procStep 0 _ (Item.mk 1 (some "http://x") none)
              (GetEnv.resp (Response.mk 200 "b" none)) rfl))
          (Relation.ReflTransGen.head (DrainStep.setEnd _)
            (Relation.ReflTransGen.head
              (DrainStep.worker 0 _ _ (WStep.drainExit 0 _ rfl rfl rfl rfl))
              Relation.ReflTransGen.refl)))))
    ⟨rfl, rfl, by decide⟩

/-- C2: the worker's dequeue step can block.  With two workers and one
task, both workers can pass the `not queue.empty()` test before either
calls `queue.get()`; the loser then sits inside the blocking
`queue.get()` on an empty queue with no enabled step
(`wStepEnabled_sound`), so the dequeue step is not non-blocking.  The
state below is reachable from a 1-task, 2-worker pool. -/
theorem dequeue_step_can_block :
    ReachD (some 0) (initSt [Item.mk 0 (some "http://y") none] 2)
        (PoolSt.mk [] false false
          [WStatus.processing (Item.mk 0 (some "http://y") none), WStatus.atGet] [])
      ∧ (PoolSt.mk [] false false
          [WStatus.processing (Item.mk 0 (some "http://y") none), WStatus.atGet]
          []).workers.get? 1 = some WStatus.atGet
      ∧ (PoolSt.mk [] false false
          [WStatus.processing (Item.mk 0 (some "http://y") none), WStatus.atGet]
          []).queue = []
      ∧ wStepEnabled 1
          (PoolSt.mk [] false false
            [WStatus.processing (Item.mk 0 (some "http://y") none), WStatus.atGet]
            []) = false :=
  ⟨Relation.ReflTransGen.head
      (DrainStep.worker 0 _ _ (WStep.seeItem 0 _ rfl rfl (by simp [initSt])))
      (Relation.ReflTransGen.head
        (DrainStep.worker 1 _ _ (WStep.seeItem 1 _ rfl rfl (by simp [initSt])))
        (Relation.ReflTransGen.head
          (DrainStep.worker 0 _ _
            (WStep.getItem 0 _ (Item.mk 0 (some "http://y") none) [] rfl rfl))
          Relation.ReflTransGen.refl)),
    rfl, rfl, rfl⟩

/-- The worker-loop invariant behind C2's no-duplicate half: at every
reachable state of a drain-shutdown run with a default callback, the
tasks delivered to callbacks are pairwise distinct and were all initial
tasks — `queue.get()` hands each task to at most one worker. -/
theorem dequeue_no_task_twice (d : Option Nat) (hd : d.isSome)
    (tasks : List Item) (hnodup : tasks.Nodup) (n : Nat)
    (s : PoolSt) (hr : ReachD d (initSt tasks n) s) :
    (invItems s.invoked).Nodup ∧ ∀ it ∈ invItems s.invoked, it ∈ tasks := by
  have hi := taskConservation_reach d hd tasks hr (taskConservation_init tasks n)
  unfold TaskConservation at hi
  have hsub : (invItems s.invoked : Multiset Item) ≤ (tasks : Multiset Item) := by
    rw [← hi]
    exact le_add_self
  constructor
  · have hnd : ((tasks : Multiset Item)).Nodup := by
      simpa [Multiset.coe_nodup] using hnodup
    have := Multiset.nodup_of_le hsub hnd
    simpa [Multiset.coe_nodup] using this
  · intro it hit
    have : it ∈ (tasks : Multiset Item) :=
      Multiset.mem_of_le hsub (by simpa [Multiset.mem_coe] using hit)
    simpa [Multiset.mem_coe] using this

/-- Witness for the no-duplicate theorem at the reachable blocked state
of `dequeue_step_can_block`'s scenario (3 steps in). -/
theorem dequeue_no_task_twice_witness :
    (invItems (PoolSt.mk [] false false
        [WStatus.processing (Item.mk 0 (some "http://y") none), WStatus.atGet]
        []).invoked).Nodup
      ∧ ∀ it ∈ invItems (PoolSt.mk [] false false
          [WStatus.processing (Item.mk 0 (some "http://y") none), WStatus.atGet]
          []).invoked, it ∈ [Item.mk 0 (some "http://y") none] :=
  dequeue_no_task_twice (some 0) rfl [Item.mk 0 (some "http://y") none]
    (by simp) 2 _
    (Relation.ReflTransGen.head
      (DrainStep.worker 0 _ _ (WStep.seeItem 0 _ rfl rfl (by simp [initSt])))
      (Relation.ReflTransGen.head
        (DrainStep.worker 1 _ _ (WStep.seeItem 1 _ rfl rfl (by simp [initSt])))
        (Relation.ReflTransGen.head
          (DrainStep.worker 0 _ _
            (WStep.getItem 0 _ (Item.mk 0 (some "http://y") none) [] rfl rfl))
          Relation.ReflTransGen.refl)))

/-- Ten tasks, as in the spec's scenario 3. -/
def tenTasks : List Item :=
  (List.range 10).map fun k => Item.mk k none none

/-- C8: calling `PyDlr.kill()` before `start()` on a pool with 10 tasks
enqueued sets the kill event, but the subsequent `t.join()` on the first
never-started thread raises `RuntimeError` instead of waiting; and zero
callback invocations ever occur: from any state with the kill event set
and all workers at the top of their loop (in particular, workers started
after the kill), no reachable state has any invocation. -/
theorem kill_before_start (d : Option Nat) (tasks : List Item) (n : Nat)
    (s : PoolSt)
    (hr : ReachD d (PoolSt.mk tasks true false (List.replicate n WStatus.atLoop) []) s) :
    ((PoolApi.mk tenTasks false [false, false]).kill).2
        = Except.error "cannot join thread before it is started"
      ∧ ((PoolApi.mk tenTasks false [false, false]).kill).1.killSet = true
      ∧ s.invoked = [] := by
  refine ⟨rfl, rfl, ?_⟩
  have hinit : KilledNoWork (PoolSt.mk tasks true false (List.replicate n WStatus.atLoop) []) := by
    refine ⟨rfl, rfl, ?_⟩
    intro w hw
    exact Or.inl (List.eq_of_mem_replicate hw)
  exact (killedNoWork_reach d hr hinit).2.1

/-- Witness for C8 at the initial state itself (the empty run). -/
theorem kill_before_start_witness :
    ((PoolApi.mk tenTasks false [false, false]).kill).2
        = Except.error "cannot join thread before it is started"
      ∧ ((PoolApi.mk tenTasks false [false, false]).kill).1.killSet = true
      ∧ (PoolSt.mk tenTasks true false (List.replicate 2 WStatus.atLoop) []).invoked = [] :=
  kill_before_start (some 0) tenTasks 2 _ Relation.ReflTransGen.refl

/-- C6: `setCallback` updates `self.callback` on the pool, but every
worker thread keeps the `defaultCallback` it captured at construction
time; a task without its own handler processed after
`setCallback (some 1)` is still delivered to the old callback `0`. -/
theorem setCallback_not_seen_by_workers :
    (setCallback (pyDlrInit 1 (some 0)) (some 1)).callback = some 1
      ∧ (setCallback (pyDlrInit 1 (some 0)) (some 1)).threads = [some 0]
      ∧ ((processItem ((setCallback (pyDlrInit 1 (some 0)) (some 1)).threads.headD none)
            (Item.mk 0 (some "http://x") none)
            (GetEnv.resp (Response.mk 200 "" none))).invoked.map Prod.fst
          = some 0) :=
  ⟨rfl, rfl, rfl⟩

/-- C3: `PyDlr.get` never lets an exception escape to its caller — for
every URL and every transport outcome the `except` chain returns the
two-value result — and an error outside the known transport categories
gets the catch-all reason `An unexpected error occurred.` and a
`logger.exception` diagnostic carrying the URL and the error text. -/
theorem get_never_raises (u : Option String) (env : GetEnv) :
    (∃ ret, getE u env = Except.ok ret)
      ∧ (∀ uu s, u = some uu → env = GetEnv.raises (PyExc.otherExc s) →
          (get u env).failureReason = some "An unexpected error occurred."
            ∧ (LogLevel.exception,
                "An unexpected error occurred while downloading " ++ uu ++ ", " ++ s)
                ∈ (get u env).logs) := by
  refine ⟨getE_ok u env, ?_⟩
  intro uu s hu henv
  subst hu
  subst henv
  rw [get_eq_of_getE (getE_raises uu (PyExc.otherExc s)
    "An unexpected error occurred." true rfl)]
  simp [excDetail]

/-- Witness for C3: a fetch of `http://z` whose transport raises an
unclassified error `boom`. -/
theorem get_never_raises_witness :
    (∃ ret, getE (some "http://z") (GetEnv.raises (PyExc.otherExc "boom")) = Except.ok ret)
      ∧ ((get (some "http://z") (GetEnv.raises (PyExc.otherExc "boom"))).failureReason
            = some "An unexpected error occurred."
          ∧ (LogLevel.exception,
              "An unexpected error occurred while downloading " ++ "http://z" ++ ", " ++ "boom")
              ∈ (get (some "http://z") (GetEnv.raises (PyExc.otherExc "boom"))).logs) :=
  ⟨(get_never_raises (some "http://z") (GetEnv.raises (PyExc.otherExc "boom"))).1,
    (get_never_raises (some "http://z") (GetEnv.raises (PyExc.otherExc "boom"))).2
      "http://z" "boom" rfl rfl⟩

/-- C4: every `Result` a worker builds in `processItem` has a failure
reason exactly when it is not a success, and an HTTP 4xx/5xx outcome
still carries the response object on the failed `Result`. -/
theorem result_failure_invariant (d : Option Nat) (item : Item) (env : GetEnv) :
    ((processItem d item env).result.failureReason ≠ none
        ↔ (processItem d item env).result.isSuccess = false)
      ∧ (∀ u r, item.url = some u → env = GetEnv.resp r →
          400 ≤ r.status → r.status < 600 →
          (processItem d item env).result.response = some r
            ∧ (processItem d item env).result.isSuccess = false) := by
  constructor
  · cases htr : truthyResp (get item.url env).response
    · have hfr := get_failureReason_of_not_truthy item.url env htr
      simp [processItem, htr, Result.failedResult, hfr]
    · have hfr := get_failureReason_of_truthy item.url env htr
      simp [processItem, htr, Result.successfulResult]
  · intro u r hu henv h4 h6
    have hrf : raisesForStatus r = true := by
      simp [raisesForStatus]
      omega
    have hg : get item.url env
        = ⟨some r, some "An HTTP error occurred.",
            [(LogLevel.debug, "Downloading " ++ u ++ "..."),
             (LogLevel.error,
              "Failed to download " ++ u ++ "... " ++ "An HTTP error occurred.")]⟩ := by
      rw [hu, henv]
      exact get_eq_of_getE (getE_resp_fail u r hrf)
    have htr : truthyResp (some r) = false := by
      simp [truthyResp, Response.ok, hrf]
    simp [processItem, htr, Result.failedResult, hg]

/-- Witness for C4 at an HTTP 500 response. -/
theorem result_failure_invariant_witness :
    ((processItem none (Item.mk 0 (some "http://w") none)
          (GetEnv.resp (Response.mk 500 "" none))).result.failureReason ≠ none
        ↔ (processItem none (Item.mk 0 (some "http://w") none)
            (GetEnv.resp (Response.mk 500 "" none))).result.isSuccess = false)
      ∧ ((processItem none (Item.mk 0 (some "http://w") none)
            (GetEnv.resp (Response.mk 500 "" none))).result.response
              = some (Response.mk 500 "" none)
          ∧ (processItem none (Item.mk 0 (some "http://w") none)
              (GetEnv.resp (Response.mk 500 "" none))).result.isSuccess = false) :=
  ⟨(result_failure_invariant none (Item.mk 0 (some "http://w") none)
      (GetEnv.resp (Response.mk 500 "" none))).1,
    (result_failure_invariant none (Item.mk 0 (some "http://w") none)
      (GetEnv.resp (Response.mk 500 "" none))).2 "http://w" (Response.mk 500 "" none)
      rfl rfl (by decide) (by decide)⟩

/-- C5: the effective callback is the task's own handler if present,
otherwise the pool (thread) default, otherwise none — in which case a
warning is logged and the `Result` is discarded unused; when both are
set only the task-specific handler is invoked. -/
theorem callback_resolution (d : Option Nat) (item : Item) (env : GetEnv) :
    (∀ c, item.callback = some c →
        (processItem d item env).invoked = some (c, (processItem d item env).result))
      ∧ (∀ c, item.callback = none → d = some c →
          (processItem d item env).invoked = some (c, (processItem d item env).result))
      ∧ (item.callback = none → d = none →
          (processItem d item env).invoked = none
            ∧ (LogLevel.warning, "There is no callback for " ++ urlStr item.url)
                ∈ (processItem d item env).logs) := by
  refine ⟨?_, ?_, ?_⟩
  · intro c hc
    simp [processItem, resolveCallback, hc]
  · intro c hc hdc
    simp [processItem, resolveCallback, hc, hdc]
  · intro hc hdc
    simp [processItem, resolveCallback, hc, hdc]

/-- Witness for C5: a task with its own handler `5` on a pool whose
default is `7` is delivered to `5`, and the same task without a handler
on a default-less pool triggers the warning and no invocation. -/
theorem callback_resolution_witness :
    (processItem (some 7) (Item.mk 0 (some "http://v") (some 5))
          (GetEnv.resp (Response.mk 200 "" none))).invoked
        = some (5, (processItem (some 7) (Item.mk 0 (some "http://v") (some 5))
            (GetEnv.resp (Response.mk 200 "" none))).result)
      ∧ ((processItem none (Item.mk 0 (some "http://v") none)
            (GetEnv.resp (Response.mk 200 "" none))).invoked = none
          ∧ (LogLevel.warning, "There is no callback for " ++ urlStr (some "http://v"))
              ∈ (processItem none (Item.mk 0 (some "http://v") none)
                  (GetEnv.resp (Response.mk 200 "" none))).logs) :=
  ⟨(callback_resolution (some 7) (Item.mk 0 (some "http://v") (some 5))
      (GetEnv.resp (Response.mk 200 "" none))).1 5 rfl,
    (callback_resolution none (Item.mk 0 (some "http://v") none)
      (GetEnv.resp (Response.mk 200 "" none))).2.2 rfl rfl⟩

/-- Counterexample to C7 as stated: a task whose URL is `None` does NOT
get skipped without a `Result` — `requests.get(None)` raises
`MissingSchema`, which the `except` chain converts to a failure reason,
so `processItem` builds a failed `Result` and delivers it to the
callback. -/
theorem malformed_task_yields_result :
    ((processItem (some 0) (Item.mk 3 none none)
          (GetEnv.resp (Response.mk 200 "" none))).invoked).isSome = true
      ∧ (processItem (some 0) (Item.mk 3 none none)
            (GetEnv.resp (Response.mk 200 "" none))).result
          = Result.failedResult (Item.mk 3 none none) none
              (some "The URL schema (e.g. http or https) is missing.") :=
  ⟨rfl, rfl⟩

/-- C7 amended: no error inside a fetch terminates the worker (the
`except` chain always returns), and a task with no target URL produces a
FAILED `Result` with the missing-URL-scheme reason, delivered to the
effective callback, with exactly one error-level diagnostic — the worker
then continues with the next task. -/
theorem malformed_task_handled (d : Option Nat) (item : Item) (env : GetEnv)
    (hurl : item.url = none) (hd : d.isSome) :
    (∃ ret, getE item.url env = Except.ok ret)
      ∧ (processItem d item env).result.isSuccess = false
      ∧ (processItem d item env).result.failureReason
          = some "The URL schema (e.g. http or https) is missing."
      ∧ (∃ c, (processItem d item env).invoked
          = some (c, (processItem d item env).result))
      ∧ ((processItem d item env).logs.filter
            fun e => decide (e.1 = LogLevel.error)).length = 1 := by
  have hg : get item.url env
      = ⟨none, some "The URL schema (e.g. http or https) is missing.",
          [(LogLevel.debug, "Downloading None..."),
           (LogLevel.error,
            "Failed to download None... The URL schema (e.g. http or https) is missing.")]⟩ := by
    rw [hurl]
    exact get_eq_of_getE (getE_none env)
  refine ⟨⟨_, by rw [hurl]; exact getE_none env⟩, ?_, ?_,
    processItem_invoked_of_default d hd item env, ?_⟩
  · simp [processItem, hg, truthyResp, Result.failedResult]
  · simp [processItem, hg, truthyResp, Result.failedResult]
  · obtain ⟨c, hc⟩ := processItem_invoked_of_default d hd item env
    have hcb : (resolveCallback item.callback d).isNone = false := by
      cases hrc : resolveCallback item.callback d with
      | none => simp [processItem, hrc] at hc
      | some c' => rfl
    simp [processItem, hg, hcb]

/-- Witness for the amended C7: a URL-less task on a pool with default
callback `4`. -/
theorem malformed_task_handled_witness :
    (∃ ret, getE (Item.mk 9 none none).url (GetEnv.raises PyExc.timeout) = Except.ok ret)
      ∧ (processItem (some 4) (Item.mk 9 none none)
            (GetEnv.raises PyExc.timeout)).result.isSuccess = false
      ∧ (processItem (some 4) (Item.mk 9 none none)
            (GetEnv.raises PyExc.timeout)).result.failureReason
          = some "The URL schema (e.g. http or https) is missing."
      ∧ (∃ c, (processItem (some 4) (Item.mk 9 none none)
            (GetEnv.raises PyExc.timeout)).invoked
          = some (c, (processItem (some 4) (Item.mk 9 none none)
              (GetEnv.raises PyExc.timeout)).result))
      ∧ ((processItem (some 4) (Item.mk 9 none none)
            (GetEnv.raises PyExc.timeout)).logs.filter
              fun e => decide (e.1 = LogLevel.error)).length = 1 :=
  malformed_task_handled (some 4) (Item.mk 9 none none)
    (GetEnv.raises PyExc.timeout) rfl rfl

/-- Counterexample to C9 as stated: `raise_for_status` only raises for
4xx/5xx, so a non-2xx response outside that range — here 304 — follows
the success path: `succeeded = true` and no failure kind, contradicting
"every non-2xx status is an httpStatusError failure". -/
theorem non2xx_not_always_http_failure :
    (¬ (200 ≤ 304 ∧ 304 < 300))
      ∧ (processItem (some 0) (Item.mk 0 (some "http://x") none)
            (GetEnv.resp (Response.mk 304 "" none))).result.isSuccess = true
      ∧ (processItem (some 0) (Item.mk 0 (some "http://x") none)
            (GetEnv.resp (Response.mk 304 "" none))).result.failureReason = none :=
  ⟨by omega, rfl, rfl⟩

/-- C9 amended: for every fetch whose server returns an HTTP response
with a 4xx/5xx status (400 ≤ status < 600), the worker's `Result` has
`succeeded = false`, the HTTP-error failure kind, and a present response
object. -/
theorem http_error_result (d : Option Nat) (item : Item) (u : String) (r : Response)
    (hu : item.url = some u) (h4 : 400 ≤ r.status) (h6 : r.status < 600) :
    (processItem d item (GetEnv.resp r)).result.isSuccess = false
      ∧ (processItem d item (GetEnv.resp r)).result.failureReason
          = some "An HTTP error occurred."
      ∧ (processItem d item (GetEnv.resp r)).result.response = some r := by
  have hrf : raisesForStatus r = true := by
    simp [raisesForStatus]
    omega
  have hg : get item.url (GetEnv.resp r)
      = ⟨some r, some "An HTTP error occurred.",
          [(LogLevel.debug, "Downloading " ++ u ++ "..."),
           (LogLevel.error,
            "Failed to download " ++ u ++ "... " ++ "An HTTP error occurred.")]⟩ := by
    rw [hu]
    exact get_eq_of_getE (getE_resp_fail u r hrf)
  have htr : truthyResp (some r) = false := by
    simp [truthyResp, Response.ok, hrf]
  simp [processItem, hg, htr, Result.failedResult]

/-- Witness for the amended C9 at an HTTP 500 response. -/
theorem http_error_result_witness :
    (processItem none (Item.mk 0 (some "http://e") none)
          (GetEnv.resp (Response.mk 500 "oops" none))).result.isSuccess = false
      ∧ (processItem none (Item.mk 0 (some "http://e") none)
            (GetEnv.resp (Response.mk 500 "oops" none))).result.failureReason
          = some "An HTTP error occurred."
      ∧ (processItem none (Item.mk 0 (some "http://e") none)
            (GetEnv.resp (Response.mk 500 "oops" none))).result.response
          = some (Response.mk 500 "oops" none) :=
  http_error_result none (Item.mk 0 (some "http://e") none) "http://e"
    (Response.mk 500 "oops" none) rfl (by decide) (by decide)

/-- C10: on a `Result` whose response is absent, all three content
accessors return the absent value instead of raising: `getBytes` and
`getText` return `None`, and `getJson` returns `None` without reaching
the raising `response.json()` call. -/
theorem absent_response_accessors (r : Result) (h : r.response = none)
    (enc : Option String) :
    r.getBytes = none ∧ r.getText enc = none ∧ r.getJson = Except.ok none := by
  simp [Result.getBytes, Result.getText, Result.getJson, h]

/-- Witness for C10: the failed result of an unreachable fetch. -/
theorem absent_response_accessors_witness :
    (Result.failedResult (Item.mk 0 (some "http://u") none) none
        (some "A Connection error occurred.")).getBytes = none
      ∧ (Result.failedResult (Item.mk 0 (some "http://u") none) none
          (some "A Connection error occurred.")).getText (some "utf-8") = none
      ∧ (Result.failedResult (Item.mk 0 (some "http://u") none) none
          (some "A Connection error occurred.")).getJson = Except.ok none :=
  absent_response_accessors
    (Result.failedResult (Item.mk 0 (some "http://u") none)
      none (some "A Connection error occurred.")) rfl (some "utf-8")

end PyDlr
